import Mathlib

/-!
Shallow embedding of the request-execution pipeline of `pinjected_openai`
(files `pinjected_openai/vision_llm.py` and `pinjected_openai/openrouter/util.py`):
the sliding-window rate limiter, the cost accounting, the structured-response
repair ladder, the two retry policies, and the image downscaling loop.

Conventions: Python `int` is modelled as `Int` (or `Nat` where the source
value is a count that is non-negative by construction), Python `float`
arithmetic is modelled exactly over `Rat`, wall-clock timestamps are abstract
integer time units passed explicitly, and `async` effects (locks, sleeps,
awaits) become explicit state passing plus event logs. Unbounded `while`
loops are modelled with fuel: a `none` / `stillLooping` result means the loop
has not exited within the given number of iterations. External collaborators
(the pydantic validator, `json_repair`, the corrective LLM, the PIL encoder,
the wrapped network task) are function parameters; everything else is
translated from the source. The file is laid out as all definitions first,
then all theorems.
-/

namespace VisionLLM

/-- UsageEntry from `vision_llm.py`: `{timestamp, tokens}`. Timestamps are
integer time units (the source uses `pd.Timestamp`). -/
structure UsageEntry where
  timestamp : Int
  tokens : Int
deriving Repr, DecidableEq

/-- RateLimitManager state from `vision_llm.py`: `max_tokens`, `max_calls`,
`duration` and the mutable `call_history`. The asyncio lock is not modelled:
each operation is a single atomic state transition. -/
structure RateLimitManager where
  max_tokens : Int
  max_calls : Int
  duration : Int
  call_history : List UsageEntry
deriving Repr, DecidableEq

/-- The pruning performed inside `_current_usage`:
`self.call_history = [e for e in self.call_history if e.timestamp > t - self.duration]`
at current time `t`. -/
def RateLimitManager.pruned (m : RateLimitManager) (t : Int) : RateLimitManager :=
  { m with call_history :=
      m.call_history.filter (fun e => decide (t - m.duration < e.timestamp)) }

/-- `_current_usage` at current time `t`: prunes the history in place and
returns `sum(e.tokens for e in self.call_history)` together with the mutated
manager. -/
def RateLimitManager.currentUsage (m : RateLimitManager) (t : Int) :
    Int × RateLimitManager :=
  let m' := m.pruned t
  (((m'.call_history.map UsageEntry.tokens).sum), m')

/-- `remaining_tokens` at current time `t`: `max_tokens - _current_usage()`.
Returns the value and the manager mutated by the pruning. -/
def RateLimitManager.remaining_tokens (m : RateLimitManager) (t : Int) :
    Int × RateLimitManager :=
  let p := m.currentUsage t
  (m.max_tokens - p.1, p.2)

/-- `remaining_calls`: `max_calls - len(call_history)`. Note that the source
does not prune here: the current list is counted as is. -/
def RateLimitManager.remaining_calls (m : RateLimitManager) : Int :=
  m.max_calls - m.call_history.length

/-- `ready(token)` at current time `t`: compute `remaining_tokens` (which
prunes), admit iff `remaining >= token and len(call_history) < max_calls`,
and on admission append `UsageEntry(now, token)`. Returns the admission flag
and the new manager state. -/
def RateLimitManager.ready (m : RateLimitManager) (t : Int) (token : Int) :
    Bool × RateLimitManager :=
  let p := m.remaining_tokens t
  let m' := p.2
  let is_ready :=
    decide (token ≤ p.1) && decide ((m'.call_history.length : Int) < m.max_calls)
  if is_ready then
    (true, { m' with call_history := m'.call_history ++ [⟨t, token⟩] })
  else
    (false, m')

/-- Run a sequence of `ready` operations, each given as a pair
(current time, requested tokens), threading the manager state. -/
def runReady (m : RateLimitManager) : List (Int × Int) → RateLimitManager
  | [] => m
  | op :: ops => runReady (m.ready op.1 op.2).2 ops

/-- `acquire(approx_tokens)` modelled with fuel: poll `ready` at time `t0`,
then sleep 1 second between polls (`await asyncio.sleep(1)`), i.e. poll again
at `t0 + 1`, `t0 + 2`, ... Returns `some m'` when admission succeeds within
`fuel` polls and `none` when the loop is still spinning after `fuel` polls. -/
def RateLimitManager.acquire (m : RateLimitManager) (t0 : Int) (tok : Int) :
    Nat → Option RateLimitManager
  | 0 => none
  | fuel + 1 =>
    match m.ready t0 tok with
    | (true, m') => some m'
    | (false, m') => m'.acquire (t0 + 1) tok fuel

/-- Sum of the token counts of the entries that lie inside the trailing window
of length `duration` ending at time `t` (the quantity the admission control is
meant to bound). -/
def RateLimitManager.windowSum (m : RateLimitManager) (t : Int) : Int :=
  ((m.call_history.filter (fun e => decide (t - m.duration < e.timestamp))).map
    UsageEntry.tokens).sum

/-- Invariant carried through a run of admission checks: every recorded token
count is non-negative, the total recorded tokens are at most `max_tokens`, and
the history length is at most `max_calls`. -/
def RateLimitManager.Inv (m : RateLimitManager) : Prop :=
  (∀ e ∈ m.call_history, 0 ≤ e.tokens) ∧
    (m.call_history.map UsageEntry.tokens).sum ≤ m.max_tokens ∧
    (m.call_history.length : Int) ≤ m.max_calls

/-- Modelled from the spec: the claim's reading of `remaining_calls`, which
"independently discards entries older than the window duration before
reporting its value" — i.e. `max_calls` minus the number of in-window entries
at the current time `t`. Stated for comparison with
`RateLimitManager.remaining_calls`, which the source computes without any
pruning. -/
def remaining_calls_spec (m : RateLimitManager) (t : Int) : Int :=
  m.max_calls - ((m.pruned t).call_history.length : Int)

/-- ModelPricing from `vision_llm.py`: USD per 1000 tokens, modelled as exact
rationals in place of Python floats. -/
structure ModelPricing where
  input_cost : Rat
  output_cost : Rat
deriving Repr, DecidableEq

/-- Cost fields of ChatCompletionWithCost (the wrapped completion itself is
irrelevant to the arithmetic). -/
structure ChatCompletionWithCost where
  total_cost_usd : Rat
  prompt_cost_usd : Rat
  completion_cost_usd : Rat
deriving Repr, DecidableEq

/-- Numeric value of a digit character. -/
def digitVal (c : Char) : Nat :=
  c.toNat - '0'.toNat

/-- Decimal number denoted by a digit string. -/
def natOfDigits (ds : List Char) : Nat :=
  ds.foldl (fun acc c => acc * 10 + digitVal c) 0

/-- Match of the regex `Please retry after (\d+) seconds.` anchored at the
start of `s`: the literal header, a greedy non-empty digit run, the literal
` seconds`, then one arbitrary character for the unescaped dot. -/
def matchRetryAfterAt (s : List Char) : Option Nat :=
  let header := "Please retry after ".toList
  if header.isPrefixOf s then
    let rest := s.drop header.length
    let ds := rest.takeWhile Char.isDigit
    let rest2 := rest.drop ds.length
    if (!ds.isEmpty) && " seconds".toList.isPrefixOf rest2
        && decide (" seconds".length < rest2.length) then
      some (natOfDigits ds)
    else
      none
  else
    none

/-- `re.search("Please retry after (\d+) seconds.", msg)` followed by
`int(match.group(1))`: the leftmost match wins. -/
def searchRetryAfter : List Char → Option Nat
  | [] => none
  | c :: rest =>
    match matchRetryAfterAt (c :: rest) with
    | some n => some n
    | none => searchRetryAfter rest

/-- Exceptions classified by `a_repeat_for_rate_limit`: the three caught
OpenAI error types and everything else. -/
inductive OpenAIError
  | rateLimitError (message : List Char)
  | apiTimeoutError
  | apiConnectionError
  | otherException (msg : String)
deriving Repr, DecidableEq

/-- One logged wait of `a_repeat_for_rate_limit`: the slept seconds, tagged
with the branch that produced them. `rateLimitSleep n true` is a parsed
retry-after hint; `rateLimitSleep 10 false` is the fallback that also logs a
parse-failure warning. -/
inductive SleepEvent
  | rateLimitSleep (seconds : Nat) (parsed : Bool)
  | timeoutSleep (seconds : Nat)
  | connectionSleep (seconds : Nat)
deriving Repr, DecidableEq

/-- Outcome of `a_repeat_for_rate_limit` observed after at most `fuel`
invocations of the task: the returned value, a propagated unclassified
exception, or `stillLooping` when the `while True` loop has not exited yet.
Each outcome carries the sleeps performed so far. -/
inductive RepeatOutcome (A : Type)
  | success (value : A) (log : List SleepEvent)
  | raised (msg : String) (log : List SleepEvent)
  | stillLooping (log : List SleepEvent)
deriving Repr, DecidableEq

/-- `a_repeat_for_rate_limit`: `while True: try: return await task()` with
the three classified handlers. `task k` is the outcome of the `k`-th
invocation (0-based). There is no attempt cap: only the fuel of the model
bounds the unfolding. -/
def a_repeat_for_rate_limit {A : Type} (task : Nat → Except OpenAIError A) :
    Nat → Nat → List SleepEvent → RepeatOutcome A
  | 0, _, log => .stillLooping log
  | fuel + 1, k, log =>
    match task k with
    | .ok a => .success a log
    | .error (.rateLimitError msg) =>
      match searchRetryAfter msg with
      | some n =>
        a_repeat_for_rate_limit task fuel (k + 1)
          (log ++ [SleepEvent.rateLimitSleep n true])
      | none =>
        a_repeat_for_rate_limit task fuel (k + 1)
          (log ++ [SleepEvent.rateLimitSleep 10 false])
    | .error .apiTimeoutError =>
      a_repeat_for_rate_limit task fuel (k + 1)
        (log ++ [SleepEvent.timeoutSleep 10])
    | .error .apiConnectionError =>
      a_repeat_for_rate_limit task fuel (k + 1)
        (log ++ [SleepEvent.connectionSleep 10])
    | .error (.otherException m) => .raised m log

end VisionLLM

namespace OpenRouterUtil

/-- The backtick character (code point 96). -/
def tick : Char := Char.ofNat 96

/-- Python `s.split("```")` over character lists: non-overlapping
left-to-right splitting on a triple backtick, as used by
`data.split('```')` in `openrouter/util.py`. -/
def splitTicks : List Char → List (List Char)
  | a :: b :: c :: rest =>
    if a = tick ∧ b = tick ∧ c = tick then
      [] :: splitTicks rest
    else
      match splitTicks (b :: c :: rest) with
      | part :: parts => (a :: part) :: parts
      | [] => [[a]]
  | c :: rest =>
    match splitTicks rest with
    | part :: parts => (c :: part) :: parts
    | [] => [[c]]
  | [] => [[]]

/-- Python `'```' in data`: true exactly when splitting on the triple
backtick produces at least two parts. -/
def hasTicks (s : List Char) : Bool :=
  decide (2 ≤ (splitTicks s).length)

/-- Python `str.strip()`: drop whitespace from both ends. -/
def pyStrip (s : List Char) : List Char :=
  ((s.dropWhile fun c => c.isWhitespace).reverse.dropWhile
    fun c => c.isWhitespace).reverse

/-- Fence stripping prelude of the structured-response branch:
`if '```' in data: data = data.split('```')[1].strip()`. -/
def stripFence (data : List Char) : List Char :=
  if hasTicks data then pyStrip ((splitTicks data).getD 1 []) else data

/-- The corrective prompt built in `a_openrouter_chat_completion`:
an f-string that embeds the broken text between a fixed header and the
trailing indentation of the closing quotes. -/
def fix_prompt_of (data : List Char) : List Char :=
  "\nPlease fix the following json object to match the schema:\n".toList
    ++ data ++ "\n                ".toList

/-- Instrumented outcome of the structured-response resolution: the value or
propagated error, whether the `json_repair` branch was entered, and the list
of prompts passed to the corrective collaborator
`a_structured_llm_for_json_fix`. -/
structure ResolveLog (V : Type) where
  result : Except String V
  repair_attempted : Bool
  fix_calls : List (List Char)
deriving Repr

/-- Structured-response resolution of `a_openrouter_chat_completion`
(the variant with the corrective-LLM fallback). `validate` models
`response_format.model_validate_json`, `repair` models
`json_repair.loads` followed by `response_format.model_validate`, and
`fixllm` models `a_structured_llm_for_json_fix`; each returns the value or
the raised exception. The fix result is returned as is, so an error from
`fixllm` propagates to the caller with no further fallback. -/
def resolveWithFix {V : Type} (validate repair fixllm : List Char → Except String V)
    (data0 : List Char) : ResolveLog V :=
  let data := stripFence data0
  match validate data with
  | .ok v => ⟨.ok v, false, []⟩
  | .error _ =>
    match repair data with
    | .ok v => ⟨.ok v, true, []⟩
    | .error _ => ⟨fixllm (fix_prompt_of data), true, [fix_prompt_of data]⟩

/-- Structured-response resolution of
`a_openrouter_chat_completion__without_fix`: same first two rungs, but a
failure of the repair stage propagates directly (there is no corrective
call in this variant). -/
def resolveWithoutFix {V : Type} (validate repair : List Char → Except String V)
    (data0 : List Char) : ResolveLog V :=
  let data := stripFence data0
  match validate data with
  | .ok v => ⟨.ok v, false, []⟩
  | .error _ => ⟨repair data, true, []⟩

/-- Token counts of a completion (`res['usage']`). -/
structure Usage where
  prompt_tokens : Nat
  completion_tokens : Nat
deriving Repr, DecidableEq

/-- OpenRouterModelPricing: the four per-unit prices. The source stores them
as decimal strings and converts with `float(...)`; they are modelled as exact
rationals. -/
structure OpenRouterModelPricing where
  prompt : Rat
  completion : Rat
  image : Rat
  request : Rat
deriving Repr, DecidableEq

/-- Return value of `calc_cost_dict`: `dict(completion=..., prompt=...)`. -/
structure CostDict where
  completion : Rat
  prompt : Rat
deriving Repr, DecidableEq

/-- `OpenRouterModelPricing.calc_cost_dict`: per-token linear cost. -/
def OpenRouterModelPricing.calc_cost_dict (p : OpenRouterModelPricing)
    (usage : Usage) : CostDict :=
  { completion := usage.completion_tokens * p.completion
  , prompt := usage.prompt_tokens * p.prompt }

/-- `sum(cost_dict.values())` as used at the accumulation sites. -/
def CostDict.total (c : CostDict) : Rat :=
  c.completion + c.prompt

/-- Shrink loop of `a_resize_image_below_5mb`, parameterised by the encoded
size (in MB) that PIL reports for a given width and height. Each iteration
replaces the dimensions by `int(width * 0.9)` and `int(height * 0.9)`, i.e.
`9 * w / 10` with truncating division. `none` means the `while` loop has not
finished within `fuel` iterations. -/
def resizeLoop (size : Nat → Nat → Rat) : Nat → Nat → Nat → Option (Nat × Nat)
  | 0, _, _ => none
  | fuel + 1, w, h =>
    if size w h ≤ 5 then some (w, h)
    else resizeLoop size fuel (9 * w / 10) (9 * h / 10)

/-- `a_resize_image_below_5mb` on an image of dimensions `w × h`: return the
copy unchanged when the encoded size is already at most 5MB, otherwise run the
shrink loop. The fuel `w + h + 1` is enough for the loop to reach a fixpoint. -/
def a_resize_image_below_5mb (size : Nat → Nat → Rat) (w h : Nat) :
    Option (Nat × Nat) :=
  resizeLoop size (w + h + 1) w h

/-- Error classification of the direct HTTP call path wrapped by `tenacity`
in `a_openrouter_chat_completion`: `httpx.ReadTimeout` against everything
else. -/
inductive HttpError
  | readTimeout
  | otherError (msg : String)
deriving Repr, DecidableEq

/-- Wait produced by `tenacity.wait_exponential(multiplier=1, min=4, max=10)`
after the `n`-th attempt (1-based): `max(max(0, min), min(multiplier *
exp_base ** (attempt_number - 1), max))`. -/
def wait_exponential_4_10 (n : Nat) : Nat :=
  max 4 (min (2 ^ (n - 1)) 10)

/-- Modelled from the spec: the wait sequence described by the words
"exponential backoff starting at 4 time-units, doubling, capped at 10
time-units" — 4, 8, 16, ... truncated at the cap. Stated for comparison with
`wait_exponential_4_10`, which is what the configured `tenacity` policy
actually produces. -/
def specWaitStart4Doubling (n : Nat) : Nat :=
  min (4 * 2 ^ (n - 1)) 10

/-- Outcome of a tenacity-wrapped operation: the success value, exhaustion
after the attempt cap (`RetryError`), or an unclassified exception raised
through. Each outcome carries the backoff waits performed, in order. -/
inductive RetryOutcome (A : Type)
  | success (value : A) (waits : List Nat)
  | exhausted (waits : List Nat)
  | raised (msg : String) (waits : List Nat)
deriving Repr, DecidableEq

/-- Waits performed, whatever the outcome. -/
def RetryOutcome.waits {A : Type} : RetryOutcome A → List Nat
  | .success _ w => w
  | .exhausted w => w
  | .raised _ w => w

/-- One tenacity attempt loop for the policy
`retry_if_exception_type(httpx.ReadTimeout)`, `stop_after_attempt(5)`,
`wait_exponential(multiplier=1, min=4, max=10)`. `run n` is the outcome of
the `n`-th invocation of the wrapped operation (attempts are 1-based). After
a failed attempt the stop condition is checked first; only below the cap does
the policy wait and retry. The fuel is only a structural bound: starting from
attempt 1 with fuel 5 the fuel never runs out before the stop condition. -/
def retryGo {A : Type} (run : Nat → Except HttpError A) :
    Nat → Nat → List Nat → RetryOutcome A
  | 0, _, waits => .exhausted waits
  | fuel + 1, n, waits =>
    match run n with
    | .ok a => .success a waits
    | .error .readTimeout =>
      if 5 ≤ n then .exhausted waits
      else retryGo run fuel (n + 1) (waits ++ [wait_exponential_4_10 n])
    | .error (.otherError m) => .raised m waits

/-- The retry wrapper of `a_openrouter_chat_completion`: start at attempt 1
with no waits performed. -/
def a_openrouter_chat_completion_retry {A : Type}
    (run : Nat → Except HttpError A) : RetryOutcome A :=
  retryGo run 5 1 []

/-- Shape of a parsed OpenRouter HTTP response as consumed after
`a_openrouter_post`: whether an `'error'` key is present, the usage counters,
and the message content `res['choices'][0]['message']['content']`. -/
structure PostResponse where
  has_error : Bool
  usage : Usage
  content : List Char
deriving Repr, DecidableEq

/-- Tail of `a_openrouter_chat_completion` after the POST returns, threading
`openrouter_state['cumulative_cost']` (absent key modelled as `none`, read
with `.get('cumulative_cost', 0)`): raise on an embedded error object,
otherwise accumulate the cost and only then resolve the content. The first
component is the state after the call, the second the returned value or the
propagated error. -/
def chat_completion_tail {V : Type} (pricing : OpenRouterModelPricing)
    (validate repair fixllm : List Char → Except String V)
    (state : Option Rat) (res : PostResponse) :
    Option Rat × Except String V :=
  if res.has_error then
    (state, .error "Error in response")
  else
    let cost := (pricing.calc_cost_dict res.usage).total
    (some (state.getD 0 + cost),
      (resolveWithFix validate repair fixllm res.content).result)

/-- Tail of `a_openrouter_chat_completion__without_fix` after the POST
returns: identical, except that the resolution has no corrective rung. -/
def chat_completion_tail_without_fix {V : Type}
    (pricing : OpenRouterModelPricing)
    (validate repair : List Char → Except String V)
    (state : Option Rat) (res : PostResponse) :
    Option Rat × Except String V :=
  if res.has_error then
    (state, .error "Error in response")
  else
    let cost := (pricing.calc_cost_dict res.usage).total
    (some (state.getD 0 + cost),
      (resolveWithoutFix validate repair res.content).result)

/-- Concrete strict validator used in witnesses and counterexamples: a schema
whose instances are denoted by the single JSON text `{"a": 1}` — any strict
JSON validator accepts that text and rejects the non-JSON string
`json\n{"a": 1}` left behind by stripping a language-tagged fence. -/
def validateExact : List Char → Except String Nat := fun s =>
  if s = "\x7b\"a\": 1\x7d".toList then .ok 1 else .error "invalid json"

/-- Concrete repair collaborator that cannot repair anything. -/
def repairFail : List Char → Except String Nat := fun _ => .error "irreparable"

/-- Concrete corrective collaborator that fails (its error must propagate). -/
def fixFail : List Char → Except String Nat := fun _ => .error "fix failed"

/-- Concrete corrective collaborator that succeeds with a fixed value. -/
def fixOk : List Char → Except String Nat := fun _ => .ok 1

/-- Concrete wrapped operation for the retry scenario: read-timeouts on
attempts 1 to 4, success on attempt 5. -/
def run4fail : Nat → Except HttpError String := fun n =>
  if n ≤ 4 then .error .readTimeout else .ok "done"

/-- Concrete encoded-size model for the resize witness: `w * h / 1000000` MB
(an uncompressed-pixels estimate). -/
def sizeQuad : Nat → Nat → Rat := fun w h => ((w * h : Nat) : Rat) / 1000000

end OpenRouterUtil

namespace VisionLLM

/-- `a_chat_completion_to_cost`: per-1000-token linear cost of the OpenAI
path, computed from the pricing table entry of the completion's model. -/
def a_chat_completion_to_cost (pricing : ModelPricing)
    (usage : OpenRouterUtil.Usage) : ChatCompletionWithCost :=
  { total_cost_usd := pricing.input_cost * usage.prompt_tokens / 1000
      + pricing.output_cost * usage.completion_tokens / 1000
  , prompt_cost_usd := pricing.input_cost * usage.prompt_tokens / 1000
  , completion_cost_usd := pricing.output_cost * usage.completion_tokens / 1000 }

/-- Concrete task for the rate-limit retry witness: a rate-limit error with a
parseable hint, one without, a timeout, a connection error, then success. -/
def taskScenario : Nat → Except OpenAIError String := fun k =>
  if k = 0 then
    .error (.rateLimitError "Rate limit reached. Please retry after 7 seconds. Visit docs.".toList)
  else if k = 1 then
    .error (.rateLimitError "server overloaded".toList)
  else if k = 2 then
    .error .apiTimeoutError
  else if k = 3 then
    .error .apiConnectionError
  else
    .ok "answer"

/-- Concrete task that is rate-limited forever (for the no-attempt-cap
conjunct). -/
def taskAlwaysLimited : Nat → Except OpenAIError String := fun _ =>
  .error (.rateLimitError "server overloaded".toList)

end VisionLLM

namespace VisionLLM

theorem sum_tokens_nonneg (l : List UsageEntry) (h : ∀ e ∈ l, 0 ≤ e.tokens) :
    0 ≤ (l.map UsageEntry.tokens).sum := by
  induction l with
  | nil => simp
  | cons a l ih =>
    simp only [List.map_cons, List.sum_cons]
    have ha := h a (by simp)
    have hl := ih (fun e he => h e (by simp [he]))
    omega

theorem sum_tokens_filter_le (l : List UsageEntry) (p : UsageEntry → Bool)
    (h : ∀ e ∈ l, 0 ≤ e.tokens) :
    ((l.filter p).map UsageEntry.tokens).sum ≤ (l.map UsageEntry.tokens).sum := by
  induction l with
  | nil => simp
  | cons a l ih =>
    have ha := h a (by simp)
    have hl := ih (fun e he => h e (by simp [he]))
    by_cases hpa : p a
    · simp only [List.filter_cons, hpa, if_pos, List.map_cons, List.sum_cons]
      omega
    · simp only [List.filter_cons, hpa, Bool.false_eq_true, if_neg,
        not_false_iff, List.map_cons, List.sum_cons]
      omega

theorem pruned_inv (m : RateLimitManager) (t : Int) (h : m.Inv) :
    (m.pruned t).Inv := by
  obtain ⟨h1, h2, h3⟩ := h
  refine ⟨?_, ?_, ?_⟩
  · intro e he
    exact h1 e (List.mem_of_mem_filter he)
  · exact le_trans (sum_tokens_filter_le _ _ h1) h2
  · have := List.length_filter_le
      (fun e => decide (t - m.duration < e.timestamp)) m.call_history
    simp only [RateLimitManager.pruned]
    omega

theorem pruned_max_tokens (m : RateLimitManager) (t : Int) :
    (m.pruned t).max_tokens = m.max_tokens := rfl

theorem pruned_max_calls (m : RateLimitManager) (t : Int) :
    (m.pruned t).max_calls = m.max_calls := rfl

theorem ready_inv (m : RateLimitManager) (t tok : Int) (htok : 0 ≤ tok)
    (h : m.Inv) : (m.ready t tok).2.Inv := by
  obtain ⟨h1, h2, h3⟩ := pruned_inv m t h
  rw [pruned_max_tokens] at h2
  rw [pruned_max_calls] at h3
  simp only [RateLimitManager.ready, RateLimitManager.remaining_tokens,
    RateLimitManager.currentUsage]
  by_cases hr : (decide (tok ≤ m.max_tokens -
      ((m.pruned t).call_history.map UsageEntry.tokens).sum) &&
      decide (((m.pruned t).call_history.length : Int) < m.max_calls)) = true
  · simp only [hr, if_pos]
    have hrem := of_decide_eq_true (Bool.and_elim_left hr)
    have hcnt := of_decide_eq_true (Bool.and_elim_right hr)
    refine ⟨?_, ?_, ?_⟩
    · intro e he
      rcases List.mem_append.mp he with he' | he'
      · exact h1 e he'
      · simp only [List.mem_singleton] at he'
        subst he'
        exact htok
    · simp only [List.map_append, List.sum_append, List.map_cons,
        List.map_nil, List.sum_cons, List.sum_nil, pruned_max_tokens]
      omega
    · simp only [List.length_append, List.length_cons, List.length_nil,
        pruned_max_calls]
      push_cast
      omega
  · simp only [hr, Bool.false_eq_true, if_neg, not_false_iff]
    exact ⟨h1, h2, h3⟩

theorem runReady_inv (ops : List (Int × Int)) (m : RateLimitManager)
    (hops : ∀ op ∈ ops, 0 ≤ op.2) (h : m.Inv) : (runReady m ops).Inv := by
  induction ops generalizing m with
  | nil => exact h
  | cons op ops ih =>
    exact ih _ (fun o ho => hops o (by simp [ho]))
      (ready_inv m op.1 op.2 (hops op (by simp)) h)

theorem windowSum_le_of_inv (m : RateLimitManager) (t : Int) (h : m.Inv) :
    m.windowSum t ≤ m.max_tokens :=
  le_trans (sum_tokens_filter_le _ _ h.1) h.2.1

theorem ready_oversized (m : RateLimitManager) (t tok : Int)
    (hnn : ∀ e ∈ m.call_history, 0 ≤ e.tokens) (hbig : m.max_tokens < tok) :
    m.ready t tok = (false, m.pruned t) := by
  have husage : 0 ≤ ((m.pruned t).call_history.map UsageEntry.tokens).sum :=
    sum_tokens_nonneg _ (fun e he => hnn e (List.mem_of_mem_filter he))
  have hdec : decide (tok ≤ m.max_tokens -
      ((m.pruned t).call_history.map UsageEntry.tokens).sum) = false := by
    rw [decide_eq_false_iff_not]
    omega
  simp [RateLimitManager.ready, RateLimitManager.remaining_tokens,
    RateLimitManager.currentUsage, hdec]

theorem acquire_none_oversized (tok : Int) :
    ∀ (fuel : Nat) (m : RateLimitManager) (t0 : Int),
      (∀ e ∈ m.call_history, 0 ≤ e.tokens) → m.max_tokens < tok →
      m.acquire t0 tok fuel = none := by
  intro fuel
  induction fuel with
  | zero =>
    intro m t0 _ _
    rfl
  | succ n ih =>
    intro m t0 hnn hbig
    have hp := ready_oversized m t0 tok hnn hbig
    simp only [RateLimitManager.acquire, hp]
    exact ih (m.pruned t0) (t0 + 1)
      (fun e he => hnn e (List.mem_of_mem_filter he)) hbig

theorem ready_max_tokens (m : RateLimitManager) (t tok : Int) :
    (m.ready t tok).2.max_tokens = m.max_tokens := by
  simp only [RateLimitManager.ready]
  split <;> rfl

theorem ready_max_calls (m : RateLimitManager) (t tok : Int) :
    (m.ready t tok).2.max_calls = m.max_calls := by
  simp only [RateLimitManager.ready]
  split <;> rfl

theorem runReady_max_tokens (ops : List (Int × Int)) (m : RateLimitManager) :
    (runReady m ops).max_tokens = m.max_tokens := by
  induction ops generalizing m with
  | nil => rfl
  | cons op ops ih => rw [runReady, ih, ready_max_tokens]

theorem runReady_max_calls (ops : List (Int × Int)) (m : RateLimitManager) :
    (runReady m ops).max_calls = m.max_calls := by
  induction ops generalizing m with
  | nil => rfl
  | cons op ops ih => rw [runReady, ih, ready_max_calls]

theorem ready_fst_iff (m : RateLimitManager) (t tok : Int) :
    (m.ready t tok).1 = true ↔
      (tok ≤ (m.remaining_tokens t).1 ∧
        ((m.pruned t).call_history.length : Int) < m.max_calls) := by
  simp only [RateLimitManager.ready, RateLimitManager.remaining_tokens,
    RateLimitManager.currentUsage]
  split <;> rename_i hc
  · simp only [Bool.and_eq_true, decide_eq_true_eq] at hc
    simpa using hc
  · simp only [Bool.and_eq_true, decide_eq_true_eq] at hc
    simpa using hc

theorem ready_true_appends (m : RateLimitManager) (t tok : Int)
    (h : (m.ready t tok).1 = true) :
    (m.ready t tok).2.call_history =
      (m.pruned t).call_history ++ [⟨t, tok⟩] := by
  simp only [RateLimitManager.ready, RateLimitManager.remaining_tokens,
    RateLimitManager.currentUsage] at h ⊢
  split at h <;> rename_i hc
  · simp [hc]
  · simp at h

end VisionLLM

/-- C1 (amended): starting from an empty `call_history`, when `max_tokens`
AND `max_calls` are non-negative and every requested token count is
non-negative, then after any sequence of `ready` checks the sum of the token
counts of the entries inside the trailing window (at any time `u`) is at most
`max_tokens` and the history length is at most `max_calls`; moreover `ready`
admits — and then appends a `UsageEntry` at check time — exactly when the
remaining token budget is at least the requested tokens and the pruned call
count is strictly below `max_calls`. The claim as stated omits the
non-negativity of `max_calls`, without which the length bound fails (see the
counterexample). -/
theorem C1_admission_invariant (mt mc d : Int) (hmt : 0 ≤ mt) (hmc : 0 ≤ mc)
    (ops : List (Int × Int)) (hops : ∀ op ∈ ops, 0 ≤ op.2) :
    (∀ u, (VisionLLM.runReady ⟨mt, mc, d, []⟩ ops).windowSum u ≤ mt) ∧
      (((VisionLLM.runReady ⟨mt, mc, d, []⟩ ops).call_history.length : Int) ≤ mc) ∧
      (∀ (m : VisionLLM.RateLimitManager) (t tok : Int),
        ((m.ready t tok).1 = true ↔
          (tok ≤ (m.remaining_tokens t).1 ∧
            ((m.pruned t).call_history.length : Int) < m.max_calls)) ∧
        ((m.ready t tok).1 = true →
          (m.ready t tok).2.call_history =
            (m.pruned t).call_history ++ [⟨t, tok⟩])) := by
  have hinv : (VisionLLM.runReady ⟨mt, mc, d, []⟩ ops).Inv :=
    VisionLLM.runReady_inv ops _ hops
      ⟨by simp, by simpa using hmt, by simpa using hmc⟩
  refine ⟨?_, ?_, ?_⟩
  · intro u
    have h := VisionLLM.windowSum_le_of_inv _ u hinv
    rwa [VisionLLM.runReady_max_tokens] at h
  · have h := hinv.2.2
    rwa [VisionLLM.runReady_max_calls] at h
  · intro m t tok
    exact ⟨VisionLLM.ready_fst_iff m t tok, VisionLLM.ready_true_appends m t tok⟩

/-- C1 counterexample: the claim as stated only assumes `max_tokens ≥ 0` and
non-negative token arguments. With `max_tokens = 0`, `max_calls = -1`,
`duration = 1` and the single operation `ready(0)` at time 0, every
hypothesis of the claim holds, yet after the operation the history length 0
exceeds `max_calls = -1`, so the claimed bound `len(call_history) ≤
max_calls` is false. -/
theorem C1_counterexample :
    (0 : Int) ≤ (0 : Int) ∧
      (∀ op ∈ [((0 : Int), (0 : Int))], 0 ≤ op.2) ∧
      ¬ (((VisionLLM.runReady ⟨0, -1, 1, []⟩ [(0, 0)]).call_history.length : Int)
          ≤ (-1 : Int)) := by
  decide

/-- C1 witness: the amended invariant applied to a concrete run with
`max_tokens = 10`, `max_calls = 2`, `duration = 5` and two admission checks. -/
theorem C1_admission_invariant_witness :
    (0 : Int) ≤ 10 ∧ (0 : Int) ≤ 2 ∧
      (∀ op ∈ [((0 : Int), (3 : Int)), (1, 7)], 0 ≤ op.2) ∧
      ((∀ u, (VisionLLM.runReady ⟨10, 2, 5, []⟩ [(0, 3), (1, 7)]).windowSum u ≤ 10) ∧
        (((VisionLLM.runReady ⟨10, 2, 5, []⟩ [(0, 3), (1, 7)]).call_history.length : Int) ≤ 2) ∧
        (∀ (m : VisionLLM.RateLimitManager) (t tok : Int),
          ((m.ready t tok).1 = true ↔
            (tok ≤ (m.remaining_tokens t).1 ∧
              ((m.pruned t).call_history.length : Int) < m.max_calls)) ∧
          ((m.ready t tok).1 = true →
            (m.ready t tok).2.call_history =
              (m.pruned t).call_history ++ [⟨t, tok⟩]))) :=
  ⟨by decide, by decide, by decide,
    C1_admission_invariant 10 2 5 (by decide) (by decide)
      [(0, 3), (1, 7)] (by decide)⟩

/-- C2: in any rate-limiter state whose recorded token counts are all
non-negative, a request strictly larger than `max_tokens` is rejected by
`ready` at every time, and `acquire` never returns: every finite number of
1-second-spaced polls leaves the loop still spinning. -/
theorem C2_oversized_request_starvation (m : VisionLLM.RateLimitManager)
    (tok : Int) (hnn : ∀ e ∈ m.call_history, 0 ≤ e.tokens)
    (hbig : m.max_tokens < tok) :
    (∀ t, (m.ready t tok).1 = false) ∧
      (∀ t0 fuel, m.acquire t0 tok fuel = none) := by
  constructor
  · intro t
    rw [VisionLLM.ready_oversized m t tok hnn hbig]
  · intro t0 fuel
    exact VisionLLM.acquire_none_oversized tok fuel m t0 hnn hbig

/-- C2 witness: a manager with `max_tokens = 5` holding one 2-token entry
rejects a 6-token request forever. -/
theorem C2_oversized_request_starvation_witness :
    (∀ e ∈ [VisionLLM.UsageEntry.mk 0 2], (0 : Int) ≤ e.tokens) ∧
      (5 : Int) < 6 ∧
      ((∀ t, ((⟨5, 3, 10, [⟨0, 2⟩]⟩ : VisionLLM.RateLimitManager).ready t 6).1 = false) ∧
        (∀ t0 fuel,
          (⟨5, 3, 10, [⟨0, 2⟩]⟩ : VisionLLM.RateLimitManager).acquire t0 6 fuel = none)) :=
  ⟨by decide, by decide,
    C2_oversized_request_starvation ⟨5, 3, 10, [⟨0, 2⟩]⟩ 6 (by decide) (by decide)⟩

/-- C3 (amended): `remaining_tokens` does re-prune — its value is
`max_tokens` minus the sum of the in-window entries only, and an entry
recorded at time `T` is discarded at every time strictly later than
`T + duration` — but `remaining_calls` performs no pruning at all: it reports
`max_calls` minus the length of the raw `call_history`, stale entries
included, until some other operation happens to prune the list. -/
theorem C3_diagnostics_repruning (m : VisionLLM.RateLimitManager) (t : Int) :
    ((m.remaining_tokens t).1 = m.max_tokens - m.windowSum t) ∧
      (∀ e ∈ m.call_history, e.timestamp + m.duration < t →
        e ∉ (m.pruned t).call_history) ∧
      (m.remaining_calls = m.max_calls - (m.call_history.length : Int)) := by
  refine ⟨rfl, ?_, rfl⟩
  intro e _ hstale hmem
  have h := List.of_mem_filter hmem
  rw [decide_eq_true_eq] at h
  omega

/-- C3 counterexample: a manager with window duration 10 holding a single
entry recorded at time 0. At time 100 — strictly later than
`T + duration = 10` — the source's `remaining_calls` still counts the stale
entry (it returns `5 - 1 = 4`), whereas the claimed independently-re-pruning
diagnostic would return 5. -/
theorem C3_counterexample :
    (0 : Int) + (10 : Int) < 100 ∧
      VisionLLM.RateLimitManager.remaining_calls ⟨100, 5, 10, [⟨0, 1⟩]⟩ = 4 ∧
      VisionLLM.remaining_calls_spec ⟨100, 5, 10, [⟨0, 1⟩]⟩ 100 = 5 ∧
      (4 : Int) ≠ 5 := by
  decide

/-- C3 witness: the amended diagnostics statement applied to a concrete
manager holding one stale and one fresh entry at time 12. -/
theorem C3_diagnostics_repruning_witness :
    ((VisionLLM.RateLimitManager.remaining_tokens ⟨100, 5, 10, [⟨0, 1⟩, ⟨7, 2⟩]⟩ 12).1 =
        100 - VisionLLM.RateLimitManager.windowSum ⟨100, 5, 10, [⟨0, 1⟩, ⟨7, 2⟩]⟩ 12) ∧
      (∀ e ∈ [VisionLLM.UsageEntry.mk 0 1, ⟨7, 2⟩], e.timestamp + (10 : Int) < 12 →
        e ∉ (VisionLLM.RateLimitManager.pruned ⟨100, 5, 10, [⟨0, 1⟩, ⟨7, 2⟩]⟩ 12).call_history) ∧
      (VisionLLM.RateLimitManager.remaining_calls ⟨100, 5, 10, [⟨0, 1⟩, ⟨7, 2⟩]⟩ =
        5 - ((2 : Nat) : Int)) :=
  C3_diagnostics_repruning ⟨100, 5, 10, [⟨0, 1⟩, ⟨7, 2⟩]⟩ 12

/-- C4: on both completion paths the cost computation is linear and exact
(over the exact rational model of the float arithmetic): `calc_cost_dict`
charges `prompt_tokens` times the per-token prompt price and
`completion_tokens` times the per-token completion price, the accumulated
total is their sum, and `a_chat_completion_to_cost` charges the same linear
form with unit prices `input_cost / 1000` and `output_cost / 1000` (its table
is per 1000 tokens); in particular usage `{prompt_tokens: 10,
completion_tokens: 1}` with pricing prompt `0.001` and completion `0.002`
yields prompt cost `0.01`, completion cost `0.002` and a cumulative increment
of `0.012`. -/
theorem C4_cost_linear_exact (p : OpenRouterUtil.OpenRouterModelPricing)
    (mp : VisionLLM.ModelPricing) (u : OpenRouterUtil.Usage) :
    ((p.calc_cost_dict u).prompt = u.prompt_tokens * p.prompt) ∧
      ((p.calc_cost_dict u).completion = u.completion_tokens * p.completion) ∧
      ((p.calc_cost_dict u).total =
        (p.calc_cost_dict u).prompt + (p.calc_cost_dict u).completion) ∧
      ((VisionLLM.a_chat_completion_to_cost mp u).prompt_cost_usd =
        u.prompt_tokens * (mp.input_cost / 1000)) ∧
      ((VisionLLM.a_chat_completion_to_cost mp u).completion_cost_usd =
        u.completion_tokens * (mp.output_cost / 1000)) ∧
      ((VisionLLM.a_chat_completion_to_cost mp u).total_cost_usd =
        (VisionLLM.a_chat_completion_to_cost mp u).prompt_cost_usd +
          (VisionLLM.a_chat_completion_to_cost mp u).completion_cost_usd) ∧
      ((OpenRouterUtil.OpenRouterModelPricing.calc_cost_dict
          ⟨1/1000, 2/1000, 0, 0⟩ ⟨10, 1⟩).prompt = 1/100) ∧
      ((OpenRouterUtil.OpenRouterModelPricing.calc_cost_dict
          ⟨1/1000, 2/1000, 0, 0⟩ ⟨10, 1⟩).completion = 2/1000) ∧
      ((OpenRouterUtil.OpenRouterModelPricing.calc_cost_dict
          ⟨1/1000, 2/1000, 0, 0⟩ ⟨10, 1⟩).total = 12/1000) := by
  refine ⟨rfl, rfl, ?_, ?_, ?_, rfl, ?_, ?_, ?_⟩
  · simp only [OpenRouterUtil.OpenRouterModelPricing.calc_cost_dict,
      OpenRouterUtil.CostDict.total]
    ring
  · simp only [VisionLLM.a_chat_completion_to_cost]
    ring
  · simp only [VisionLLM.a_chat_completion_to_cost]
    ring
  · norm_num [OpenRouterUtil.OpenRouterModelPricing.calc_cost_dict]
  · norm_num [OpenRouterUtil.OpenRouterModelPricing.calc_cost_dict]
  · norm_num [OpenRouterUtil.OpenRouterModelPricing.calc_cost_dict,
      OpenRouterUtil.CostDict.total]

/-- C5 (amended): resolution is transparent for a bare JSON text containing
no triple backtick, and for a fenced text whose opening delimiter carries no
language tag — splitting on the triple backtick yields `["", body, ""]` and
the stripped body is the JSON. In both cases (and in both resolver variants)
the result equals the direct strict parse, the repair rung is not entered and
the corrective collaborator is not called. The claim as stated is false for
the common language-tagged fence (three backticks followed by `json`): the
split-and-strip keeps the tag glued to the JSON, strict validation rejects
it, and the repair path is invoked (see the counterexample). -/
theorem C5_fence_roundtrip {V : Type}
    (validate repair fixllm : List Char → Except String V)
    (data mid : List Char) (v : V) :
    (OpenRouterUtil.splitTicks data = [data] → validate data = .ok v →
      (OpenRouterUtil.resolveWithFix validate repair fixllm data = ⟨.ok v, false, []⟩ ∧
        OpenRouterUtil.resolveWithoutFix validate repair data = ⟨.ok v, false, []⟩)) ∧
    (OpenRouterUtil.splitTicks data = [[], mid, []] →
      validate (OpenRouterUtil.pyStrip mid) = .ok v →
      (OpenRouterUtil.resolveWithFix validate repair fixllm data = ⟨.ok v, false, []⟩ ∧
        OpenRouterUtil.resolveWithoutFix validate repair data = ⟨.ok v, false, []⟩)) := by
  constructor
  · intro hsplit hval
    have hstrip : OpenRouterUtil.stripFence data = data := by
      simp [OpenRouterUtil.stripFence, OpenRouterUtil.hasTicks, hsplit]
    constructor <;>
      simp [OpenRouterUtil.resolveWithFix, OpenRouterUtil.resolveWithoutFix,
        hstrip, hval]
  · intro hsplit hval
    have hstrip : OpenRouterUtil.stripFence data = OpenRouterUtil.pyStrip mid := by
      simp [OpenRouterUtil.stripFence, OpenRouterUtil.hasTicks, hsplit]
    constructor <;>
      simp [OpenRouterUtil.resolveWithFix, OpenRouterUtil.resolveWithoutFix,
        hstrip, hval]

/-- C5 counterexample: the JSON `{"a": 1}` validates against the schema, but
wrapped in the language-tagged fence `` ```json ... ``` `` the resolver strips
to the non-JSON text `json\n{"a": 1}`, strict validation fails, the repair
rung IS entered, and (with a repair and corrective collaborator that cannot
recover) the result is an error rather than the directly parsed value — so
fence stripping is not transparent and the no-repair clause of the claim is
false. -/
theorem C5_counterexample :
    OpenRouterUtil.validateExact "\x7b\"a\": 1\x7d".toList = .ok 1 ∧
      OpenRouterUtil.stripFence "```json\n\x7b\"a\": 1\x7d\n```".toList =
        "json\n\x7b\"a\": 1\x7d".toList ∧
      (OpenRouterUtil.resolveWithFix OpenRouterUtil.validateExact
        OpenRouterUtil.repairFail OpenRouterUtil.fixFail
        "```json\n\x7b\"a\": 1\x7d\n```".toList).repair_attempted = true ∧
      (OpenRouterUtil.resolveWithFix OpenRouterUtil.validateExact
        OpenRouterUtil.repairFail OpenRouterUtil.fixFail
        "```json\n\x7b\"a\": 1\x7d\n```".toList).result = .error "fix failed" ∧
      (Except.error "fix failed" ≠ (Except.ok 1 : Except String Nat)) :=
  ⟨rfl, rfl, rfl, rfl, by simp⟩

/-- C5 witness: the amended round trip applied to the concrete validator and
the untagged fence `` ``` ... ``` `` around `{"a": 1}`. -/
theorem C5_fence_roundtrip_witness :
    (OpenRouterUtil.splitTicks "```\n\x7b\"a\": 1\x7d\n```".toList =
        [[], "\n\x7b\"a\": 1\x7d\n".toList, []]) ∧
      (OpenRouterUtil.validateExact
        (OpenRouterUtil.pyStrip "\n\x7b\"a\": 1\x7d\n".toList) = .ok 1) ∧
      ((OpenRouterUtil.resolveWithFix OpenRouterUtil.validateExact
          OpenRouterUtil.repairFail OpenRouterUtil.fixFail
          "```\n\x7b\"a\": 1\x7d\n```".toList = ⟨.ok 1, false, []⟩) ∧
        (OpenRouterUtil.resolveWithoutFix OpenRouterUtil.validateExact
          OpenRouterUtil.repairFail
          "```\n\x7b\"a\": 1\x7d\n```".toList = ⟨.ok 1, false, []⟩)) :=
  ⟨by decide, rfl,
    (C5_fence_roundtrip OpenRouterUtil.validateExact OpenRouterUtil.repairFail
        OpenRouterUtil.fixFail "```\n\x7b\"a\": 1\x7d\n```".toList
        "\n\x7b\"a\": 1\x7d\n".toList 1).2 (by decide) rfl⟩

/-- C6: when the (fence-stripped) text fails both strict validation and the
syntactic `json_repair` rung, the resolver invokes the corrective
collaborator exactly once, on the fix prompt that embeds the broken text, and
returns that collaborator's result unchanged — a success is returned, an
error propagates, and there is no further fallback or recursion. -/
theorem C6_repair_ladder_failure {V : Type}
    (validate repair fixllm : List Char → Except String V) (data : List Char)
    (e1 e2 : String)
    (hval : validate (OpenRouterUtil.stripFence data) = .error e1)
    (hrep : repair (OpenRouterUtil.stripFence data) = .error e2) :
    OpenRouterUtil.resolveWithFix validate repair fixllm data =
      ⟨fixllm (OpenRouterUtil.fix_prompt_of (OpenRouterUtil.stripFence data)),
        true,
        [OpenRouterUtil.fix_prompt_of (OpenRouterUtil.stripFence data)]⟩ ∧
      (OpenRouterUtil.resolveWithFix validate repair fixllm data).fix_calls.length = 1 := by
  have h : OpenRouterUtil.resolveWithFix validate repair fixllm data =
      ⟨fixllm (OpenRouterUtil.fix_prompt_of (OpenRouterUtil.stripFence data)),
        true,
        [OpenRouterUtil.fix_prompt_of (OpenRouterUtil.stripFence data)]⟩ := by
    simp [OpenRouterUtil.resolveWithFix, hval, hrep]
  refine ⟨h, ?_⟩
  rw [h]
  rfl

/-- C6 witness: irreparable nonsense with a failing corrective collaborator —
the fix is called once and its error is the final result; the same theorem
instantiated with a succeeding collaborator returns its value. -/
theorem C6_repair_ladder_failure_witness :
    (OpenRouterUtil.validateExact
        (OpenRouterUtil.stripFence "certainly! here is your json".toList) =
      .error "invalid json") ∧
      (OpenRouterUtil.repairFail
          (OpenRouterUtil.stripFence "certainly! here is your json".toList) =
        .error "irreparable") ∧
      ((OpenRouterUtil.resolveWithFix OpenRouterUtil.validateExact
          OpenRouterUtil.repairFail OpenRouterUtil.fixFail
          "certainly! here is your json".toList =
        ⟨OpenRouterUtil.fixFail
            (OpenRouterUtil.fix_prompt_of
              (OpenRouterUtil.stripFence "certainly! here is your json".toList)),
          true,
          [OpenRouterUtil.fix_prompt_of
              (OpenRouterUtil.stripFence "certainly! here is your json".toList)]⟩) ∧
        (OpenRouterUtil.resolveWithFix OpenRouterUtil.validateExact
            OpenRouterUtil.repairFail OpenRouterUtil.fixFail
            "certainly! here is your json".toList).fix_calls.length = 1) :=
  ⟨rfl, rfl,
    C6_repair_ladder_failure OpenRouterUtil.validateExact
      OpenRouterUtil.repairFail OpenRouterUtil.fixFail
      "certainly! here is your json".toList "invalid json" "irreparable"
      rfl rfl⟩

namespace OpenRouterUtil

theorem retryGo_ok {A : Type} (run : Nat → Except HttpError A)
    (fuel n : Nat) (waits : List Nat) (a : A) (h : run n = .ok a) :
    retryGo run (fuel + 1) n waits = .success a waits := by
  simp only [retryGo, h]

theorem retryGo_other {A : Type} (run : Nat → Except HttpError A)
    (fuel n : Nat) (waits : List Nat) (m : String)
    (h : run n = .error (.otherError m)) :
    retryGo run (fuel + 1) n waits = .raised m waits := by
  simp only [retryGo, h]

theorem retryGo_timeout_retry {A : Type} (run : Nat → Except HttpError A)
    (fuel n : Nat) (waits : List Nat) (hn : n < 5)
    (h : run n = .error .readTimeout) :
    retryGo run (fuel + 1) n waits =
      retryGo run fuel (n + 1) (waits ++ [wait_exponential_4_10 n]) := by
  simp only [retryGo, h]
  rw [if_neg (by omega)]

theorem retryGo_timeout_stop {A : Type} (run : Nat → Except HttpError A)
    (fuel n : Nat) (waits : List Nat) (hn : 5 ≤ n)
    (h : run n = .error .readTimeout) :
    retryGo run (fuel + 1) n waits = .exhausted waits := by
  simp only [retryGo, h]
  rw [if_pos hn]

theorem retryGo_waits_le {A : Type} (run : Nat → Except HttpError A) :
    ∀ (fuel n : Nat) (waits : List Nat),
      (retryGo run fuel n waits).waits.length ≤ waits.length + (5 - n) := by
  intro fuel
  induction fuel with
  | zero =>
    intro n waits
    simp [retryGo, RetryOutcome.waits]
  | succ f ih =>
    intro n waits
    cases hr : run n with
    | ok a =>
      rw [retryGo_ok run f n waits a hr]
      simp [RetryOutcome.waits]
    | error e =>
      cases e with
      | readTimeout =>
        by_cases hn : 5 ≤ n
        · rw [retryGo_timeout_stop run f n waits hn hr]
          simp [RetryOutcome.waits]
        · rw [retryGo_timeout_retry run f n waits (by omega) hr]
          have h2 := ih (n + 1) (waits ++ [wait_exponential_4_10 n])
          simp only [List.length_append, List.length_cons,
            List.length_nil] at h2
          omega
      | otherError msg =>
        rw [retryGo_other run f n waits msg hr]
        simp [RetryOutcome.waits]

end OpenRouterUtil

/-- C7 counterexample: with `wait_exponential(multiplier=1, min=4, max=10)`
the wait after the `n`-th failed attempt is `max(4, min(2^(n-1), 10))`, so
the second wait is 4, not the 8 that "starting at 4 time-units, doubling"
prescribes; concretely, an operation read-timing-out on attempts 1–4 and
succeeding on attempt 5 performs the waits [4, 4, 4, 8], not the
[4, 8, 10, 10] of the claimed schedule. -/
theorem C7_counterexample :
    OpenRouterUtil.wait_exponential_4_10 2 = 4 ∧
      OpenRouterUtil.specWaitStart4Doubling 2 = 8 ∧
      ((4 : Nat) ≠ 8) ∧
      OpenRouterUtil.a_openrouter_chat_completion_retry OpenRouterUtil.run4fail =
        .success "done" [4, 4, 4, 8] ∧
      ([4, 4, 4, 8] : List Nat) ≠
        [OpenRouterUtil.specWaitStart4Doubling 1,
          OpenRouterUtil.specWaitStart4Doubling 2,
          OpenRouterUtil.specWaitStart4Doubling 3,
          OpenRouterUtil.specWaitStart4Doubling 4] :=
  ⟨by decide, by decide, by decide, by decide, by decide⟩

/-- C7 (amended): the transient-network policy retries only on read-timeout
errors (anything else raises immediately with no further attempt), makes at
most 5 attempts (hence at most 4 waits), is transparent to success, and its
backoff waits follow `max(4, min(2^(n-1), 10))` — the exponential clamped
into [4, 10] — rather than doubling from 4; an operation that read-times-out
4 times then succeeds returns the success value after exactly the 4
non-decreasing waits [4, 4, 4, 8], each at most the 10-unit cap. -/
theorem C7_transient_retry_policy {A : Type}
    (run : Nat → Except OpenRouterUtil.HttpError A) (a : A) (m : String) :
    (run 1 = .ok a →
      OpenRouterUtil.a_openrouter_chat_completion_retry run = .success a []) ∧
      (∀ (fuel n : Nat) (waits : List Nat),
        run n = .error (.otherError m) →
        OpenRouterUtil.retryGo run (fuel + 1) n waits = .raised m waits) ∧
      ((OpenRouterUtil.a_openrouter_chat_completion_retry run).waits.length ≤ 4) ∧
      ((∀ n, 1 ≤ n → n ≤ 4 → run n = .error .readTimeout) → run 5 = .ok a →
        (OpenRouterUtil.a_openrouter_chat_completion_retry run =
            .success a [4, 4, 4, 8] ∧
          List.Chain' (· ≤ ·) [4, 4, 4, 8] ∧
          (∀ w ∈ [(4 : Nat), 4, 4, 8], w ≤ 10) ∧
          ([4, 4, 4, 8] =
            [OpenRouterUtil.wait_exponential_4_10 1,
              OpenRouterUtil.wait_exponential_4_10 2,
              OpenRouterUtil.wait_exponential_4_10 3,
              OpenRouterUtil.wait_exponential_4_10 4]))) := by
  refine ⟨?_, ?_, ?_, ?_⟩
  · intro h
    exact OpenRouterUtil.retryGo_ok run 4 1 [] a h
  · intro fuel n waits h
    exact OpenRouterUtil.retryGo_other run fuel n waits m h
  · have := OpenRouterUtil.retryGo_waits_le run 5 1 []
    simpa using this
  · intro hfail hok
    have e1 := hfail 1 (by omega) (by omega)
    have e2 := hfail 2 (by omega) (by omega)
    have e3 := hfail 3 (by omega) (by omega)
    have e4 := hfail 4 (by omega) (by omega)
    refine ⟨?_, by norm_num [List.chain'_cons, List.chain'_singleton],
      by decide, by decide⟩
    show OpenRouterUtil.retryGo run 5 1 [] = _
    rw [show (5 : Nat) = 4 + 1 from rfl,
      OpenRouterUtil.retryGo_timeout_retry run 4 1 [] (by omega) e1,
      show (4 : Nat) = 3 + 1 from rfl,
      OpenRouterUtil.retryGo_timeout_retry run 3 (1 + 1) _ (by omega) e2,
      show (3 : Nat) = 2 + 1 from rfl,
      OpenRouterUtil.retryGo_timeout_retry run 2 (1 + 1 + 1) _ (by omega) e3,
      show (2 : Nat) = 1 + 1 from rfl,
      OpenRouterUtil.retryGo_timeout_retry run 1 (1 + 1 + 1 + 1) _ (by omega) e4,
      OpenRouterUtil.retryGo_ok run 0 (1 + 1 + 1 + 1 + 1) _ a (by simpa using hok)]
    have hw : (((([] ++ [OpenRouterUtil.wait_exponential_4_10 1]) ++
        [OpenRouterUtil.wait_exponential_4_10 (1 + 1)]) ++
        [OpenRouterUtil.wait_exponential_4_10 (1 + 1 + 1)]) ++
        [OpenRouterUtil.wait_exponential_4_10 (1 + 1 + 1 + 1)] : List Nat) =
        [4, 4, 4, 8] := by decide
    rw [hw]

/-- C7 witness: the amended policy applied to the concrete operation that
read-times-out on attempts 1–4 and succeeds with `"done"` on attempt 5, with
the scenario hypotheses discharged. -/
theorem C7_transient_retry_policy_witness :
    (∀ n, 1 ≤ n → n ≤ 4 →
      OpenRouterUtil.run4fail n = .error .readTimeout) ∧
      OpenRouterUtil.run4fail 5 = .ok "done" ∧
      ((OpenRouterUtil.a_openrouter_chat_completion_retry
          OpenRouterUtil.run4fail).waits.length ≤ 4) ∧
      (OpenRouterUtil.a_openrouter_chat_completion_retry OpenRouterUtil.run4fail =
          .success "done" [4, 4, 4, 8] ∧
        List.Chain' (· ≤ ·) [4, 4, 4, 8] ∧
        (∀ w ∈ [(4 : Nat), 4, 4, 8], w ≤ 10) ∧
        ([4, 4, 4, 8] =
          [OpenRouterUtil.wait_exponential_4_10 1,
            OpenRouterUtil.wait_exponential_4_10 2,
            OpenRouterUtil.wait_exponential_4_10 3,
            OpenRouterUtil.wait_exponential_4_10 4])) :=
  ⟨fun n _ h4 => by simp [OpenRouterUtil.run4fail, h4], rfl,
    (C7_transient_retry_policy OpenRouterUtil.run4fail "done" "boom").2.2.1,
    (C7_transient_retry_policy OpenRouterUtil.run4fail "done" "boom").2.2.2
      (fun n _ h4 => by simp [OpenRouterUtil.run4fail, h4]) rfl⟩

/-- C8: the rate-limit retry wrapper is transparent to success; on a
rate-limit error it sleeps exactly the parsed `Please retry after N seconds.`
hint, or a fixed 10 units with a parse-failure warning when no hint parses;
on timeout and connection errors it sleeps a fixed 10 units; any other
exception propagates immediately with no retry; and there is no attempt cap:
a task that is rate-limited on every attempt leaves the loop still spinning
after every finite number of iterations, so a rate-limit error is never by
itself terminal. -/
theorem C8_rate_limit_retry_policy {A : Type}
    (task : Nat → Except VisionLLM.OpenAIError A) (a : A) (k fuel : Nat)
    (log : List VisionLLM.SleepEvent) (msg : List Char) (n : Nat)
    (em : String) :
    (task k = .ok a →
      VisionLLM.a_repeat_for_rate_limit task (fuel + 1) k log = .success a log) ∧
      (task k = .error (.rateLimitError msg) →
        VisionLLM.searchRetryAfter msg = some n →
        VisionLLM.a_repeat_for_rate_limit task (fuel + 1) k log =
          VisionLLM.a_repeat_for_rate_limit task fuel (k + 1)
            (log ++ [.rateLimitSleep n true])) ∧
      (task k = .error (.rateLimitError msg) →
        VisionLLM.searchRetryAfter msg = none →
        VisionLLM.a_repeat_for_rate_limit task (fuel + 1) k log =
          VisionLLM.a_repeat_for_rate_limit task fuel (k + 1)
            (log ++ [.rateLimitSleep 10 false])) ∧
      (task k = .error .apiTimeoutError →
        VisionLLM.a_repeat_for_rate_limit task (fuel + 1) k log =
          VisionLLM.a_repeat_for_rate_limit task fuel (k + 1)
            (log ++ [.timeoutSleep 10])) ∧
      (task k = .error .apiConnectionError →
        VisionLLM.a_repeat_for_rate_limit task (fuel + 1) k log =
          VisionLLM.a_repeat_for_rate_limit task fuel (k + 1)
            (log ++ [.connectionSleep 10])) ∧
      (task k = .error (.otherException em) →
        VisionLLM.a_repeat_for_rate_limit task (fuel + 1) k log =
          .raised em log) ∧
      ((∀ j, ∃ msgj, task j = .error (.rateLimitError msgj)) →
        ∀ (f k0 : Nat) (l0 : List VisionLLM.SleepEvent),
          ∃ l, VisionLLM.a_repeat_for_rate_limit task f k0 l0 = .stillLooping l) := by
  refine ⟨?_, ?_, ?_, ?_, ?_, ?_, ?_⟩
  · intro h
    simp only [VisionLLM.a_repeat_for_rate_limit, h]
  · intro h hp
    simp only [VisionLLM.a_repeat_for_rate_limit, h, hp]
  · intro h hp
    simp only [VisionLLM.a_repeat_for_rate_limit, h, hp]
  · intro h
    simp only [VisionLLM.a_repeat_for_rate_limit, h]
  · intro h
    simp only [VisionLLM.a_repeat_for_rate_limit, h]
  · intro h
    simp only [VisionLLM.a_repeat_for_rate_limit, h]
  · intro hall f
    induction f with
    | zero =>
      intro k0 l0
      exact ⟨l0, rfl⟩
    | succ g ih =>
      intro k0 l0
      obtain ⟨msgj, hj⟩ := hall k0
      cases hp : VisionLLM.searchRetryAfter msgj with
      | some nj =>
        obtain ⟨l, hl⟩ := ih (k0 + 1) (l0 ++ [.rateLimitSleep nj true])
        refine ⟨l, ?_⟩
        simp only [VisionLLM.a_repeat_for_rate_limit, hj, hp]
        exact hl
      | none =>
        obtain ⟨l, hl⟩ := ih (k0 + 1) (l0 ++ [.rateLimitSleep 10 false])
        refine ⟨l, ?_⟩
        simp only [VisionLLM.a_repeat_for_rate_limit, hj, hp]
        exact hl

/-- C8 witness: the policy applied to a concrete task that is rate-limited
with a parseable 7-second hint, rate-limited without a hint, timed out,
connection-refused, and then succeeds — plus the no-cap conjunct applied to a
task that is rate-limited forever. -/
theorem C8_rate_limit_retry_policy_witness :
    VisionLLM.taskScenario 4 = .ok "answer" ∧
      VisionLLM.a_repeat_for_rate_limit VisionLLM.taskScenario 1 4 [] =
        .success "answer" [] ∧
      VisionLLM.taskScenario 0 =
        .error (.rateLimitError
          "Rate limit reached. Please retry after 7 seconds. Visit docs.".toList) ∧
      VisionLLM.searchRetryAfter
        "Rate limit reached. Please retry after 7 seconds. Visit docs.".toList = some 7 ∧
      VisionLLM.a_repeat_for_rate_limit VisionLLM.taskScenario 5 0 [] =
        VisionLLM.a_repeat_for_rate_limit VisionLLM.taskScenario 4 1
          [.rateLimitSleep 7 true] ∧
      (∀ (f k0 : Nat) (l0 : List VisionLLM.SleepEvent),
        ∃ l, VisionLLM.a_repeat_for_rate_limit VisionLLM.taskAlwaysLimited f k0 l0 =
          .stillLooping l) :=
  ⟨rfl,
    (C8_rate_limit_retry_policy VisionLLM.taskScenario "answer" 4 0 [] [] 0 "").1 rfl,
    rfl,
    by decide,
    (C8_rate_limit_retry_policy VisionLLM.taskScenario "answer" 0 4 []
        "Rate limit reached. Please retry after 7 seconds. Visit docs.".toList
        7 "").2.1 rfl (by decide),
    (C8_rate_limit_retry_policy VisionLLM.taskAlwaysLimited "answer" 0 0 [] [] 0 "").2.2.2.2.2.2
      (fun _ => ⟨"server overloaded".toList, rfl⟩)⟩

namespace OpenRouterUtil

theorem shrink_aspect_bound (w h : Nat) :
    -(h : Int) ≤ ((9 * w / 10 : Nat) : Int) * h - (w : Int) * ((9 * h / 10 : Nat) : Int) ∧
      ((9 * w / 10 : Nat) : Int) * h - (w : Int) * ((9 * h / 10 : Nat) : Int) ≤ w := by
  have hw := Nat.div_add_mod (9 * w) 10
  have hh := Nat.div_add_mod (9 * h) 10
  have hrw : 9 * w % 10 < 10 := Nat.mod_lt _ (by omega)
  have hrh : 9 * h % 10 < 10 := Nat.mod_lt _ (by omega)
  have hwI : (10 : Int) * ((9 * w / 10 : Nat) : Int) + ((9 * w % 10 : Nat) : Int)
      = 9 * (w : Int) := by exact_mod_cast hw
  have hhI : (10 : Int) * ((9 * h / 10 : Nat) : Int) + ((9 * h % 10 : Nat) : Int)
      = 9 * (h : Int) := by exact_mod_cast hh
  have hrwI : ((9 * w % 10 : Nat) : Int) < 10 := by exact_mod_cast hrw
  have hrhI : ((9 * h % 10 : Nat) : Int) < 10 := by exact_mod_cast hrh
  have hrwI0 : (0 : Int) ≤ ((9 * w % 10 : Nat) : Int) := Int.natCast_nonneg _
  have hrhI0 : (0 : Int) ≤ ((9 * h % 10 : Nat) : Int) := Int.natCast_nonneg _
  have hw0 : (0 : Int) ≤ (w : Int) := Int.natCast_nonneg _
  have hh0 : (0 : Int) ≤ (h : Int) := Int.natCast_nonneg _
  have hkey : 10 * (((9 * w / 10 : Nat) : Int) * h - (w : Int) * ((9 * h / 10 : Nat) : Int))
      = ((9 * h % 10 : Nat) : Int) * w - ((9 * w % 10 : Nat) : Int) * h := by
    linear_combination (h : Int) * hwI - (w : Int) * hhI
  constructor
  · nlinarith [hkey, hrwI, hrhI0, hw0, hh0]
  · nlinarith [hkey, hrhI, hrwI0, hw0, hh0]

theorem resizeLoop_reaches (size : Nat → Nat → Rat) (hzero : size 0 0 ≤ 5) :
    ∀ (fuel w h : Nat), w + h < fuel →
      ∃ p, resizeLoop size fuel w h = some p ∧ size p.1 p.2 ≤ 5 := by
  intro fuel
  induction fuel with
  | zero =>
    intro w h hlt
    omega
  | succ f ih =>
    intro w h hlt
    by_cases hs : size w h ≤ 5
    · exact ⟨(w, h), by simp [resizeLoop, hs], hs⟩
    · have hpos : 1 ≤ w + h := by
        by_contra hc
        push_neg at hc
        have hw : w = 0 := by omega
        have hhh : h = 0 := by omega
        rw [hw, hhh] at hs
        exact hs hzero
      have hdec : 9 * w / 10 + 9 * h / 10 < f := by omega
      obtain ⟨p, hp, hps⟩ := ih (9 * w / 10) (9 * h / 10) hdec
      exact ⟨p, by simp [resizeLoop, hs, hp], hps⟩

end OpenRouterUtil

/-- C9: image normalization meets its bound and terminates — an image whose
encoded size is already at most 5MB is returned unchanged; an oversized image
is shrunk by exactly 10% in each dimension per iteration with integer
truncation (`int(width * 0.9)` is `9 * w / 10`); each step preserves the
width/height aspect ratio within rounding (the cross ratio
`new_w * h - w * new_h` is between `-h` and `w`); and the loop terminates
with a final encoded size of at most 5MB. The termination hypothesis is the
modelling assumption that the encoder reports at most 5MB for the empty
0 × 0 image, which the geometric shrink reaches in finitely many steps if
nothing larger already passed the threshold. -/
theorem C9_image_resize (size : Nat → Nat → Rat) (w h : Nat)
    (hzero : size 0 0 ≤ 5) :
    (size w h ≤ 5 →
      OpenRouterUtil.a_resize_image_below_5mb size w h = some (w, h)) ∧
      (∀ (fuel w' h' : Nat), ¬ size w' h' ≤ 5 →
        OpenRouterUtil.resizeLoop size (fuel + 1) w' h' =
          OpenRouterUtil.resizeLoop size fuel (9 * w' / 10) (9 * h' / 10)) ∧
      (∀ w' h' : Nat,
        -(h' : Int) ≤ ((9 * w' / 10 : Nat) : Int) * h' -
            (w' : Int) * ((9 * h' / 10 : Nat) : Int) ∧
          ((9 * w' / 10 : Nat) : Int) * h' -
            (w' : Int) * ((9 * h' / 10 : Nat) : Int) ≤ w') ∧
      (∃ p, OpenRouterUtil.a_resize_image_below_5mb size w h = some p ∧
        size p.1 p.2 ≤ 5) := by
  refine ⟨?_, ?_, ?_, ?_⟩
  · intro hs
    simp [OpenRouterUtil.a_resize_image_below_5mb, OpenRouterUtil.resizeLoop, hs]
  · intro fuel w' h' hs
    simp [OpenRouterUtil.resizeLoop, hs]
  · intro w' h'
    exact OpenRouterUtil.shrink_aspect_bound w' h'
  · exact OpenRouterUtil.resizeLoop_reaches size hzero (w + h + 1) w h (by omega)

/-- C9 witness: the loop applied to the quadratic size model
`w * h / 1000000` MB and a 4000 × 4000 image (16MB), discharging the
0 × 0 assumption. -/
theorem C9_image_resize_witness :
    OpenRouterUtil.sizeQuad 0 0 ≤ 5 ∧
      ((OpenRouterUtil.sizeQuad 4000 4000 ≤ 5 →
        OpenRouterUtil.a_resize_image_below_5mb OpenRouterUtil.sizeQuad 4000 4000 =
          some (4000, 4000)) ∧
        (∀ (fuel w' h' : Nat), ¬ OpenRouterUtil.sizeQuad w' h' ≤ 5 →
          OpenRouterUtil.resizeLoop OpenRouterUtil.sizeQuad (fuel + 1) w' h' =
            OpenRouterUtil.resizeLoop OpenRouterUtil.sizeQuad fuel
              (9 * w' / 10) (9 * h' / 10)) ∧
        (∀ w' h' : Nat,
          -(h' : Int) ≤ ((9 * w' / 10 : Nat) : Int) * h' -
              (w' : Int) * ((9 * h' / 10 : Nat) : Int) ∧
            ((9 * w' / 10 : Nat) : Int) * h' -
              (w' : Int) * ((9 * h' / 10 : Nat) : Int) ≤ w') ∧
        (∃ p, OpenRouterUtil.a_resize_image_below_5mb OpenRouterUtil.sizeQuad
            4000 4000 = some p ∧
          OpenRouterUtil.sizeQuad p.1 p.2 ≤ 5)) :=
  ⟨by norm_num [OpenRouterUtil.sizeQuad],
    C9_image_resize OpenRouterUtil.sizeQuad 4000 4000
      (by norm_num [OpenRouterUtil.sizeQuad])⟩

/-- C10: in both completion variants the cumulative cost is updated exactly
once per call whose response carries no `'error'` key, and the update is
independent of the subsequent validation: when the response embeds an error
object the call raises with the cumulative state unchanged, and when the
response is error-free the state becomes the old total plus this call's cost
for every possible behaviour of the validation, repair and corrective
collaborators — in particular it has already been charged when the
structured resolution later fails. -/
theorem C10_cost_accumulation_atomicity {V : Type}
    (pricing : OpenRouterUtil.OpenRouterModelPricing)
    (validate repair fixllm : List Char → Except String V)
    (state : Option Rat) (res : OpenRouterUtil.PostResponse) :
    (res.has_error = true →
      (OpenRouterUtil.chat_completion_tail pricing validate repair fixllm state res =
          (state, .error "Error in response") ∧
        OpenRouterUtil.chat_completion_tail_without_fix pricing validate repair state res =
          (state, .error "Error in response"))) ∧
      (res.has_error = false →
        ((OpenRouterUtil.chat_completion_tail pricing validate repair fixllm state res).1 =
            some (state.getD 0 + (pricing.calc_cost_dict res.usage).total) ∧
          (OpenRouterUtil.chat_completion_tail_without_fix pricing validate repair state res).1 =
            some (state.getD 0 + (pricing.calc_cost_dict res.usage).total) ∧
          (OpenRouterUtil.chat_completion_tail pricing validate repair fixllm state res).2 =
            (OpenRouterUtil.resolveWithFix validate repair fixllm res.content).result ∧
          (OpenRouterUtil.chat_completion_tail_without_fix pricing validate repair state res).2 =
            (OpenRouterUtil.resolveWithoutFix validate repair res.content).result)) := by
  constructor
  · intro he
    constructor <;>
      simp [OpenRouterUtil.chat_completion_tail,
        OpenRouterUtil.chat_completion_tail_without_fix, he]
  · intro he
    refine ⟨?_, ?_, ?_, ?_⟩ <;>
      simp [OpenRouterUtil.chat_completion_tail,
        OpenRouterUtil.chat_completion_tail_without_fix, he]

/-- C10 witness: with the concrete pricing, a 10/1-token usage and
irreparable content, an error-flagged response leaves the state untouched
and raises, while an error-free response increments the (initially absent)
cumulative total by the call's cost even though the structured resolution
ends in an error. -/
theorem C10_cost_accumulation_atomicity_witness :
    ((OpenRouterUtil.PostResponse.mk true ⟨10, 1⟩ "nonsense".toList).has_error = true) ∧
      (OpenRouterUtil.chat_completion_tail ⟨1/1000, 2/1000, 0, 0⟩
          OpenRouterUtil.validateExact OpenRouterUtil.repairFail OpenRouterUtil.fixFail
          (some 3) (OpenRouterUtil.PostResponse.mk true ⟨10, 1⟩ "nonsense".toList) =
        (some 3, .error "Error in response") ∧
        OpenRouterUtil.chat_completion_tail_without_fix ⟨1/1000, 2/1000, 0, 0⟩
          OpenRouterUtil.validateExact OpenRouterUtil.repairFail
          (some 3) (OpenRouterUtil.PostResponse.mk true ⟨10, 1⟩ "nonsense".toList) =
        (some 3, .error "Error in response")) ∧
      ((OpenRouterUtil.PostResponse.mk false ⟨10, 1⟩ "nonsense".toList).has_error = false) ∧
      ((OpenRouterUtil.chat_completion_tail ⟨1/1000, 2/1000, 0, 0⟩
          OpenRouterUtil.validateExact OpenRouterUtil.repairFail OpenRouterUtil.fixFail
          none (OpenRouterUtil.PostResponse.mk false ⟨10, 1⟩ "nonsense".toList)).1 =
        some ((none : Option Rat).getD 0 +
          (OpenRouterUtil.OpenRouterModelPricing.calc_cost_dict ⟨1/1000, 2/1000, 0, 0⟩
            ⟨10, 1⟩).total)) ∧
      ((OpenRouterUtil.chat_completion_tail ⟨1/1000, 2/1000, 0, 0⟩
          OpenRouterUtil.validateExact OpenRouterUtil.repairFail OpenRouterUtil.fixFail
          none (OpenRouterUtil.PostResponse.mk false ⟨10, 1⟩ "nonsense".toList)).2 =
        .error "fix failed") :=
  ⟨rfl,
    (C10_cost_accumulation_atomicity ⟨1/1000, 2/1000, 0, 0⟩
        OpenRouterUtil.validateExact OpenRouterUtil.repairFail OpenRouterUtil.fixFail
        (some 3) (OpenRouterUtil.PostResponse.mk true ⟨10, 1⟩ "nonsense".toList)).1 rfl,
    rfl,
    ((C10_cost_accumulation_atomicity ⟨1/1000, 2/1000, 0, 0⟩
        OpenRouterUtil.validateExact OpenRouterUtil.repairFail OpenRouterUtil.fixFail
        none (OpenRouterUtil.PostResponse.mk false ⟨10, 1⟩ "nonsense".toList)).2 rfl).1,
    rfl⟩
